import Mathlib

/-!
Shallow embedding of the video-avatar rendering core of the repository:
the class `VideoAvatarRenderer` (play/src/front/Phaser/Entity/VideoAvatarRenderer.ts)
and the registry class `VideoAvatarManager`.

Modelling conventions:
* Mutable instance state becomes a Lean structure; each method becomes a
  function from the structure (plus its arguments) to the structure.
* The 2D canvas pixel buffer is abstracted to a `CanvasContent` value that
  records which drawing routine last painted it and with which geometric
  parameters; the Phaser canvas texture is a second such value, copied from
  the canvas by `refreshTexture` (which is guarded by `destroyed`, as in the
  source).
* JavaScript numbers (timestamps in milliseconds, pixel dimensions) are
  modelled as rationals `ℚ`, so the aspect-ratio divisions are exact.
* The two asynchronous image-load callbacks installed by `setMaskImage`
  (`img.onload`, `img.onerror`) are modelled as the standalone transition
  functions `maskOnload` / `maskOnerror` that the environment may apply at
  any later time; `maskOnload` receives the decoded image.
* Releasing engine-owned resources (removing the hidden video element,
  destroying the Phaser texture object) has no observable counterpart in the
  state and is not represented.
-/

/-- A media stream, inspected by the code only through
`stream.getVideoTracks().length`. -/
structure MediaStream where
  videoTracks : Nat
deriving DecidableEq

/-- A decoded image, inspected by the code only through `img.width` and
`img.height`. -/
structure MaskImage where
  width : ℚ
  height : ℚ
deriving DecidableEq

/-- Abstract content of the 32x32 canvas: which drawer painted it last and
with which parameters.  `blank` is the untouched freshly-allocated buffer;
`maskDrawn` records the fill color, the image size, and the destination
rectangle passed to `drawImage`; `videoFrame` records the source rectangle
and the destination rectangle passed to `drawImage`. -/
inductive CanvasContent where
  | blank
  | maskDrawn (bg : String) (imgW imgH dx dy dw dh : ℚ)
  | videoFrame (sx sy sw sh dx dy dw dh : ℚ)
deriving DecidableEq

/-- State of one `VideoAvatarRenderer` instance (its private fields, the
abstracted canvas buffer, and the abstracted Phaser texture). -/
structure VideoAvatarRenderer where
  textureKey : String
  lastFrameTime : ℚ
  frameInterval : ℚ
  isActive : Bool
  currentMaskImage : Option MaskImage
  maskLoading : Bool
  destroyed : Bool
  srcObject : Option MediaStream
  canvas : CanvasContent
  texture : CanvasContent
deriving DecidableEq

namespace VideoAvatarRenderer

/-- Static constant `SPRITE_WIDTH`. -/
def SPRITE_WIDTH : ℚ := 32

/-- Static constant `SPRITE_HEIGHT`. -/
def SPRITE_HEIGHT : ℚ := 32

/-- The fill color used by `drawMaskToCanvas` before drawing the image. -/
def maskBackground : String := "#333333"

/-- Method `refreshTexture`: copies the canvas into the Phaser texture;
returns early when the instance is destroyed. -/
def refreshTexture (r : VideoAvatarRenderer) : VideoAvatarRenderer :=
  if r.destroyed then r else { r with texture := r.canvas }

/-- The background fill color used by `drawPlaceholder`. -/
def placeholderBackground : String := "#444444"

/-- The abstract content painted by `drawPlaceholder`: the silhouette
geometry (background fill, head arc, body ellipse) is constant, so the
whole painting is represented by this single value. -/
def placeholderContent : CanvasContent :=
  CanvasContent.maskDrawn placeholderBackground 0 0 0 0 0 0

/-- Method `drawPlaceholder`: paints the deterministic silhouette and
refreshes the texture. -/
def drawPlaceholder (r : VideoAvatarRenderer) : VideoAvatarRenderer :=
  refreshTexture { r with canvas := placeholderContent }

/-- Method `drawMaskToCanvas`: contain-fit (letterbox) of the cached mask
image into the 32x32 canvas over a `#333333` background, then texture
refresh.  Falls back to the placeholder when no mask is cached. -/
def drawMaskToCanvas (r : VideoAvatarRenderer) : VideoAvatarRenderer :=
  match r.currentMaskImage with
  | none => drawPlaceholder r
  | some img =>
    let width := SPRITE_WIDTH
    let height := SPRITE_HEIGHT
    let imgAspect := img.width / img.height
    let targetAspect := width / height
    let rect :=
      if imgAspect > targetAspect then
        -- image is wider: dh = width / imgAspect, dy = (height - dh) / 2
        let dh := width / imgAspect
        ((0 : ℚ), (height - dh) / 2, width, dh)
      else
        -- image is taller: dw = height * imgAspect, dx = (width - dw) / 2
        let dw := height * imgAspect
        ((width - dw) / 2, (0 : ℚ), dw, height)
    let content := CanvasContent.maskDrawn maskBackground img.width img.height
      rect.1 rect.2.1 rect.2.2.1 rect.2.2.2
    refreshTexture { r with canvas := content }

/-- Method `drawVideoFrame`: cover-fit (center crop) of the current video
frame, whose reported dimensions are `videoWidth` x `videoHeight`, into the
32x32 canvas, then texture refresh. -/
def drawVideoFrame (r : VideoAvatarRenderer) (videoWidth videoHeight : ℚ) :
    VideoAvatarRenderer :=
  let width := SPRITE_WIDTH
  let height := SPRITE_HEIGHT
  let videoAspect := videoWidth / videoHeight
  let targetAspect := width / height
  let rect :=
    if videoAspect > targetAspect then
      -- video is wider: sw = videoHeight * targetAspect, sx = (videoWidth - sw) / 2
      let sw := videoHeight * targetAspect
      ((videoWidth - sw) / 2, (0 : ℚ), sw, videoHeight)
    else
      -- video is taller: sh = videoWidth / targetAspect, sy = (videoHeight - sh) / 2
      let sh := videoWidth / targetAspect
      ((0 : ℚ), (videoHeight - sh) / 2, videoWidth, sh)
  let content := CanvasContent.videoFrame rect.1 rect.2.1 rect.2.2.1 rect.2.2.2
    0 0 width height
  refreshTexture { r with canvas := content }

/-- The test `stream && stream.getVideoTracks().length > 0`. -/
def hasVideoTrack : Option MediaStream → Bool
  | some s => 0 < s.videoTracks
  | none => false

/-- Method `setStream`. -/
def setStream (r : VideoAvatarRenderer) (stream : Option MediaStream) :
    VideoAvatarRenderer :=
  if r.destroyed then r
  else if hasVideoTrack stream then
    { r with srcObject := stream, isActive := true }
  else
    let r2 := { r with srcObject := none, isActive := false }
    if r2.currentMaskImage.isSome then drawMaskToCanvas r2 else drawPlaceholder r2

/-- Method `setMaskImage` (the synchronous part): with a null URL it clears
the cached mask and, when not video-active, repaints the placeholder; with a
URL it sets `maskLoading` and starts an asynchronous load whose callbacks
are `maskOnload` / `maskOnerror`. -/
def setMaskImage (r : VideoAvatarRenderer) (imageUrl : Option String) :
    VideoAvatarRenderer :=
  if r.destroyed then r
  else
    match imageUrl with
    | none =>
      let r2 := { r with currentMaskImage := none }
      if r2.isActive = false then drawPlaceholder r2 else r2
    | some _ => { r with maskLoading := true }

/-- The `img.onload` callback installed by `setMaskImage`; `img` is the
decoded image.  Checks `destroyed` first. -/
def maskOnload (r : VideoAvatarRenderer) (img : MaskImage) :
    VideoAvatarRenderer :=
  if r.destroyed then r
  else
    let r2 := { r with currentMaskImage := some img, maskLoading := false }
    if r2.isActive = false then drawMaskToCanvas r2 else r2

/-- The `img.onerror` callback installed by `setMaskImage`.  Note: unlike
`onload`, the source does not check `destroyed` here. -/
def maskOnerror (r : VideoAvatarRenderer) : VideoAvatarRenderer :=
  let r2 := { r with maskLoading := false }
  if r2.isActive = false then drawPlaceholder r2 else r2

/-- Method `update`: throttled video redraw.  `videoWidth` and `videoHeight`
are the dimensions currently reported by the hidden video element. -/
def update (r : VideoAvatarRenderer) (time videoWidth videoHeight : ℚ) :
    VideoAvatarRenderer :=
  if r.destroyed then r
  else if r.isActive = false then r
  else if time - r.lastFrameTime < r.frameInterval then r
  else
    let r2 := { r with lastFrameTime := time }
    if videoWidth = 0 ∨ videoHeight = 0 then r2
    else drawVideoFrame r2 videoWidth videoHeight

/-- Method `isVideoActive`. -/
def isVideoActive (r : VideoAvatarRenderer) : Bool := r.isActive

/-- Method `isMaskLoading`. -/
def isMaskLoading (r : VideoAvatarRenderer) : Bool := r.maskLoading

/-- Method `getTextureKey`. -/
def getTextureKey (r : VideoAvatarRenderer) : String := r.textureKey

/-- Method `destroy`. -/
def destroy (r : VideoAvatarRenderer) : VideoAvatarRenderer :=
  if r.destroyed then r
  else
    { r with destroyed := true, srcObject := none, isActive := false,
             currentMaskImage := none }

/-- The constructor: fresh fields, then an immediate `drawPlaceholder`. -/
def create (textureKey : String) : VideoAvatarRenderer :=
  drawPlaceholder
    { textureKey := textureKey
      lastFrameTime := 0
      frameInterval := 66
      isActive := false
      currentMaskImage := none
      maskLoading := false
      destroyed := false
      srcObject := none
      canvas := CanvasContent.blank
      texture := CanvasContent.blank }

end VideoAvatarRenderer

/-!
The registry class `VideoAvatarManager`.  The `Map<string, VideoAvatarRenderer>`
is modelled as an association list (newest binding first; the code only ever
inserts a key it has just looked up as absent, so keys stay distinct).
`console.warn` output is modelled by a `log` field collecting the messages,
newest first.
-/

/-- State of the `VideoAvatarManager` registry. -/
structure VideoAvatarManager where
  renderers : List (String × VideoAvatarRenderer)
  localRenderer : Option VideoAvatarRenderer
  destroyed : Bool
  log : List String
deriving DecidableEq

namespace VideoAvatarManager

/-- Constant `MAX_CONCURRENT_VIDEO`. -/
def MAX_CONCURRENT_VIDEO : Nat := 8

/-- The warning emitted when the cap is reached at creation time. -/
def maxWarning : String :=
  "Maximum concurrent video avatars (8) reached"

/-- The texture key of the local renderer. -/
def localKey : String := "local_video_avatar"

/-- The texture-key base for remote renderers. -/
def remoteKeyBase : String := "remote_video_"

/-- The constructor. -/
def create : VideoAvatarManager :=
  { renderers := [], localRenderer := none, destroyed := false, log := [] }

/-- Method `createLocalRenderer`: returns the updated registry and the
returned renderer. -/
def createLocalRenderer (m : VideoAvatarManager) :
    VideoAvatarManager × VideoAvatarRenderer :=
  match m.localRenderer with
  | some r => (m, r)
  | none =>
    let r := VideoAvatarRenderer.create localKey
    ({ m with localRenderer := some r }, r)

/-- Method `getLocalRenderer`. -/
def getLocalRenderer (m : VideoAvatarManager) : Option VideoAvatarRenderer :=
  m.localRenderer

/-- Method `createRemoteRenderer`: returns the updated registry and the
returned renderer.  When the map already holds `MAX_CONCURRENT_VIDEO`
entries it logs a warning but still creates and inserts the renderer. -/
def createRemoteRenderer (m : VideoAvatarManager) (spaceUserId : String) :
    VideoAvatarManager × VideoAvatarRenderer :=
  match m.renderers.lookup spaceUserId with
  | some existing => (m, existing)
  | none =>
    let m2 :=
      if MAX_CONCURRENT_VIDEO ≤ m.renderers.length
      then { m with log := maxWarning :: m.log }
      else m
    let textureKey := remoteKeyBase ++ spaceUserId
    let renderer := VideoAvatarRenderer.create textureKey
    ({ m2 with renderers := (spaceUserId, renderer) :: m2.renderers }, renderer)

/-- Method `getRenderer`. -/
def getRenderer (m : VideoAvatarManager) (spaceUserId : String) :
    Option VideoAvatarRenderer :=
  m.renderers.lookup spaceUserId

/-- Method `getOrCreateRenderer`. -/
def getOrCreateRenderer (m : VideoAvatarManager) (spaceUserId : String) :
    VideoAvatarManager × VideoAvatarRenderer :=
  match m.renderers.lookup spaceUserId with
  | some existing => (m, existing)
  | none => createRemoteRenderer m spaceUserId

/-- Method `getActiveVideoCount`: mirrors the source's counting loop
(`count` initialised from the local renderer, then `forEach` over the map). -/
def getActiveVideoCount (m : VideoAvatarManager) : Nat :=
  let count :=
    match m.localRenderer with
    | some r => if r.isVideoActive then 1 else 0
    | none => 0
  m.renderers.foldl (fun c p => if p.2.isVideoActive then c + 1 else c) count

/-- Method `canAddVideoStream`. -/
def canAddVideoStream (m : VideoAvatarManager) : Bool :=
  getActiveVideoCount m < MAX_CONCURRENT_VIDEO

end VideoAvatarManager

namespace VideoAvatarRenderer

/-- The exact condition under which one call `update(time)` reaches
`drawVideoFrame` (a video redraw), read off the guard chain of `update`:
not destroyed, video-active, throttle window elapsed, and nonzero reported
video dimensions. -/
def RedrawsAt (r : VideoAvatarRenderer) (time videoWidth videoHeight : ℚ) :
    Prop :=
  r.destroyed = false ∧ r.isActive = true ∧
  r.frameInterval ≤ time - r.lastFrameTime ∧
  videoWidth ≠ 0 ∧ videoHeight ≠ 0

instance (r : VideoAvatarRenderer) (t w h : ℚ) :
    Decidable (RedrawsAt r t w h) := by
  unfold RedrawsAt; infer_instance

/-- Running `update` over a list of tick timestamps (with the video element
reporting fixed dimensions), collecting the timestamps at which a video
redraw is performed. -/
def redrawTrace (r : VideoAvatarRenderer) (videoWidth videoHeight : ℚ) :
    List ℚ → List ℚ
  | [] => []
  | t :: ts =>
    if RedrawsAt r t videoWidth videoHeight then
      t :: redrawTrace (update r t videoWidth videoHeight) videoWidth videoHeight ts
    else
      redrawTrace (update r t videoWidth videoHeight) videoWidth videoHeight ts

end VideoAvatarRenderer

/-- A stream with one video track, used in concrete scenarios. -/
def demoStream : MediaStream := { videoTracks := 1 }

/-- A freshly created renderer that has just been attached to a live video
stream (video-active, `lastFrameTime = 0`). -/
def streamedDemo : VideoAvatarRenderer :=
  VideoAvatarRenderer.setStream
    (VideoAvatarRenderer.create VideoAvatarManager.localKey) (some demoStream)

/-- Ticks 0, 10, 20, ..., 200 (10 ms apart, spanning 200 ms). -/
def ticks0to200 : List ℚ :=
  [0, 10, 20, 30, 40, 50, 60, 70, 80, 90, 100,
   110, 120, 130, 140, 150, 160, 170, 180, 190, 200]

/-- Ticks 1000, 1010, ..., 1200 (10 ms apart, spanning 200 ms). -/
def ticks1000to1200 : List ℚ :=
  [1000, 1010, 1020, 1030, 1040, 1050, 1060, 1070, 1080, 1090, 1100,
   1110, 1120, 1130, 1140, 1150, 1160, 1170, 1180, 1190, 1200]

/-- An in-memory 64x64 mask image used in concrete scenarios. -/
def demoImg : MaskImage := { width := 64, height := 64 }

/-- A mask URL used in concrete scenarios. -/
def demoUrl : String := "https://example.invalid/mask.png"

/-- A participant id used in concrete scenarios. -/
def demoId : String := "user-42"

/-- A renderer that started a mask load and was then destroyed while the
load was still in flight (`maskLoading` is still `true`). -/
def destroyedLoading : VideoAvatarRenderer :=
  VideoAvatarRenderer.destroy
    (VideoAvatarRenderer.setMaskImage
      (VideoAvatarRenderer.create VideoAvatarManager.localKey) (some demoUrl))

/-- An idle (not video-active) renderer holding a cached mask image. -/
def maskedIdle : VideoAvatarRenderer :=
  VideoAvatarRenderer.maskOnload
    (VideoAvatarRenderer.create VideoAvatarManager.localKey) demoImg

namespace VideoAvatarRenderer

@[simp] lemma refreshTexture_canvas (r : VideoAvatarRenderer) :
    (refreshTexture r).canvas = r.canvas := by
  unfold refreshTexture; split <;> rfl

@[simp] lemma refreshTexture_destroyed (r : VideoAvatarRenderer) :
    (refreshTexture r).destroyed = r.destroyed := by
  unfold refreshTexture; split <;> rfl

@[simp] lemma refreshTexture_isActive (r : VideoAvatarRenderer) :
    (refreshTexture r).isActive = r.isActive := by
  unfold refreshTexture; split <;> rfl

@[simp] lemma refreshTexture_lastFrameTime (r : VideoAvatarRenderer) :
    (refreshTexture r).lastFrameTime = r.lastFrameTime := by
  unfold refreshTexture; split <;> rfl

@[simp] lemma refreshTexture_frameInterval (r : VideoAvatarRenderer) :
    (refreshTexture r).frameInterval = r.frameInterval := by
  unfold refreshTexture; split <;> rfl

@[simp] lemma refreshTexture_maskLoading (r : VideoAvatarRenderer) :
    (refreshTexture r).maskLoading = r.maskLoading := by
  unfold refreshTexture; split <;> rfl

@[simp] lemma refreshTexture_currentMaskImage (r : VideoAvatarRenderer) :
    (refreshTexture r).currentMaskImage = r.currentMaskImage := by
  unfold refreshTexture; split <;> rfl

@[simp] lemma refreshTexture_srcObject (r : VideoAvatarRenderer) :
    (refreshTexture r).srcObject = r.srcObject := by
  unfold refreshTexture; split <;> rfl

@[simp] lemma refreshTexture_textureKey (r : VideoAvatarRenderer) :
    (refreshTexture r).textureKey = r.textureKey := by
  unfold refreshTexture; split <;> rfl

lemma refreshTexture_texture_of_not_destroyed (r : VideoAvatarRenderer)
    (hD : r.destroyed = false) : (refreshTexture r).texture = r.canvas := by
  unfold refreshTexture; simp [hD]

lemma refreshTexture_texture_of_destroyed (r : VideoAvatarRenderer)
    (hD : r.destroyed = true) : (refreshTexture r).texture = r.texture := by
  unfold refreshTexture; simp [hD]

@[simp] lemma drawPlaceholder_canvas (r : VideoAvatarRenderer) :
    (drawPlaceholder r).canvas = placeholderContent := by
  unfold drawPlaceholder; simp

@[simp] lemma drawPlaceholder_destroyed (r : VideoAvatarRenderer) :
    (drawPlaceholder r).destroyed = r.destroyed := by
  unfold drawPlaceholder; simp

@[simp] lemma drawPlaceholder_isActive (r : VideoAvatarRenderer) :
    (drawPlaceholder r).isActive = r.isActive := by
  unfold drawPlaceholder; simp

@[simp] lemma drawPlaceholder_lastFrameTime (r : VideoAvatarRenderer) :
    (drawPlaceholder r).lastFrameTime = r.lastFrameTime := by
  unfold drawPlaceholder; simp

@[simp] lemma drawPlaceholder_frameInterval (r : VideoAvatarRenderer) :
    (drawPlaceholder r).frameInterval = r.frameInterval := by
  unfold drawPlaceholder; simp

@[simp] lemma drawPlaceholder_maskLoading (r : VideoAvatarRenderer) :
    (drawPlaceholder r).maskLoading = r.maskLoading := by
  unfold drawPlaceholder; simp

@[simp] lemma drawPlaceholder_currentMaskImage (r : VideoAvatarRenderer) :
    (drawPlaceholder r).currentMaskImage = r.currentMaskImage := by
  unfold drawPlaceholder; simp

@[simp] lemma drawPlaceholder_srcObject (r : VideoAvatarRenderer) :
    (drawPlaceholder r).srcObject = r.srcObject := by
  unfold drawPlaceholder; simp

@[simp] lemma drawPlaceholder_textureKey (r : VideoAvatarRenderer) :
    (drawPlaceholder r).textureKey = r.textureKey := by
  unfold drawPlaceholder; simp

lemma drawPlaceholder_texture_of_not_destroyed (r : VideoAvatarRenderer)
    (hD : r.destroyed = false) : (drawPlaceholder r).texture = placeholderContent := by
  unfold drawPlaceholder
  rw [refreshTexture_texture_of_not_destroyed]
  exact hD

lemma drawPlaceholder_texture_of_destroyed (r : VideoAvatarRenderer)
    (hD : r.destroyed = true) : (drawPlaceholder r).texture = r.texture := by
  unfold drawPlaceholder
  rw [refreshTexture_texture_of_destroyed]
  exact hD

@[simp] lemma drawVideoFrame_destroyed (r : VideoAvatarRenderer) (w h : ℚ) :
    (drawVideoFrame r w h).destroyed = r.destroyed := by
  unfold drawVideoFrame; simp

@[simp] lemma drawVideoFrame_isActive (r : VideoAvatarRenderer) (w h : ℚ) :
    (drawVideoFrame r w h).isActive = r.isActive := by
  unfold drawVideoFrame; simp

@[simp] lemma drawVideoFrame_lastFrameTime (r : VideoAvatarRenderer) (w h : ℚ) :
    (drawVideoFrame r w h).lastFrameTime = r.lastFrameTime := by
  unfold drawVideoFrame; simp

@[simp] lemma drawVideoFrame_frameInterval (r : VideoAvatarRenderer) (w h : ℚ) :
    (drawVideoFrame r w h).frameInterval = r.frameInterval := by
  unfold drawVideoFrame; simp

@[simp] lemma drawVideoFrame_maskLoading (r : VideoAvatarRenderer) (w h : ℚ) :
    (drawVideoFrame r w h).maskLoading = r.maskLoading := by
  unfold drawVideoFrame; simp

@[simp] lemma drawVideoFrame_currentMaskImage (r : VideoAvatarRenderer) (w h : ℚ) :
    (drawVideoFrame r w h).currentMaskImage = r.currentMaskImage := by
  unfold drawVideoFrame; simp

@[simp] lemma drawVideoFrame_srcObject (r : VideoAvatarRenderer) (w h : ℚ) :
    (drawVideoFrame r w h).srcObject = r.srcObject := by
  unfold drawVideoFrame; simp

@[simp] lemma drawMaskToCanvas_destroyed (r : VideoAvatarRenderer) :
    (drawMaskToCanvas r).destroyed = r.destroyed := by
  unfold drawMaskToCanvas
  cases h : r.currentMaskImage <;> simp [h]

@[simp] lemma drawMaskToCanvas_isActive (r : VideoAvatarRenderer) :
    (drawMaskToCanvas r).isActive = r.isActive := by
  unfold drawMaskToCanvas
  cases h : r.currentMaskImage <;> simp [h]

@[simp] lemma drawMaskToCanvas_maskLoading (r : VideoAvatarRenderer) :
    (drawMaskToCanvas r).maskLoading = r.maskLoading := by
  unfold drawMaskToCanvas
  cases h : r.currentMaskImage <;> simp [h]

@[simp] lemma drawMaskToCanvas_currentMaskImage (r : VideoAvatarRenderer) :
    (drawMaskToCanvas r).currentMaskImage = r.currentMaskImage := by
  unfold drawMaskToCanvas
  cases h : r.currentMaskImage <;> simp [h]

@[simp] lemma drawMaskToCanvas_srcObject (r : VideoAvatarRenderer) :
    (drawMaskToCanvas r).srcObject = r.srcObject := by
  unfold drawMaskToCanvas
  cases h : r.currentMaskImage <;> simp [h]

lemma update_eq_self_of_throttled (r : VideoAvatarRenderer) (t w h : ℚ)
    (hD : r.destroyed = false) (hA : r.isActive = true)
    (hlt : t - r.lastFrameTime < r.frameInterval) :
    update r t w h = r := by
  unfold update
  simp [hD, hA, hlt]

lemma update_of_redraws (r : VideoAvatarRenderer) (t w h : ℚ)
    (hR : RedrawsAt r t w h) :
    update r t w h = drawVideoFrame { r with lastFrameTime := t } w h := by
  obtain ⟨hD, hA, hle, hw, hh⟩ := hR
  unfold update
  simp [hD, hA, not_lt.mpr hle, hw, hh]

lemma update_not_redraws (r : VideoAvatarRenderer) (t w h : ℚ)
    (hD : r.destroyed = false) (hA : r.isActive = true)
    (hw : w ≠ 0) (hh : h ≠ 0) (hn : ¬ RedrawsAt r t w h) :
    update r t w h = r := by
  refine update_eq_self_of_throttled r t w h hD hA ?_
  by_contra hge
  exact hn ⟨hD, hA, not_lt.mp hge, hw, hh⟩

@[simp] lemma update_destroyed (r : VideoAvatarRenderer) (t w h : ℚ) :
    (update r t w h).destroyed = r.destroyed := by
  unfold update
  split
  · rfl
  split
  · rfl
  split
  · rfl
  split
  · rfl
  · simp

@[simp] lemma update_isActive (r : VideoAvatarRenderer) (t w h : ℚ) :
    (update r t w h).isActive = r.isActive := by
  unfold update
  split
  · rfl
  split
  · rfl
  split
  · rfl
  split
  · rfl
  · simp

@[simp] lemma update_frameInterval (r : VideoAvatarRenderer) (t w h : ℚ) :
    (update r t w h).frameInterval = r.frameInterval := by
  unfold update
  split
  · rfl
  split
  · rfl
  split
  · rfl
  split
  · rfl
  · simp

lemma update_lastFrameTime_cases (r : VideoAvatarRenderer) (t w h : ℚ) :
    (update r t w h).lastFrameTime = r.lastFrameTime ∨
    ((update r t w h).lastFrameTime = t ∧ r.destroyed = false ∧
      r.isActive = true ∧ r.frameInterval ≤ t - r.lastFrameTime) := by
  unfold update
  split
  · exact Or.inl rfl
  next hD =>
  split
  · exact Or.inl rfl
  next hA =>
  split
  · exact Or.inl rfl
  next hlt =>
  refine Or.inr ?_
  have hD2 : r.destroyed = false := by
    cases hb : r.destroyed
    · rfl
    · exact absurd hb hD
  have hA2 : r.isActive = true := by
    cases hb : r.isActive
    · exact absurd hb hA
    · rfl
  refine ⟨?_, hD2, hA2, not_lt.mp hlt⟩
  split
  · rfl
  · simp

lemma update_lastFrameTime_mono (r : VideoAvatarRenderer) (t w h : ℚ)
    (hI : 0 ≤ r.frameInterval) :
    r.lastFrameTime ≤ (update r t w h).lastFrameTime := by
  rcases update_lastFrameTime_cases r t w h with hc | ⟨ht, _, _, hle⟩
  · exact le_of_eq hc.symm
  · rw [ht]; linarith

lemma update_canvas_of_not_redraws (r : VideoAvatarRenderer) (t w h : ℚ)
    (hn : ¬ RedrawsAt r t w h) : (update r t w h).canvas = r.canvas := by
  unfold update
  split
  · rfl
  next hD =>
  split
  · rfl
  next hA =>
  split
  · rfl
  next hlt =>
  have hD2 : r.destroyed = false := by
    cases hb : r.destroyed
    · rfl
    · exact absurd hb hD
  have hA2 : r.isActive = true := by
    cases hb : r.isActive
    · exact absurd hb hA
    · rfl
  split
  next hz =>
    rfl
  next hz =>
    push_neg at hz
    exact absurd ⟨hD2, hA2, not_lt.mp hlt, hz.1, hz.2⟩ hn

lemma update_lastFrameTime_of_canvas_ne (r : VideoAvatarRenderer) (t w h : ℚ)
    (hne : (update r t w h).canvas ≠ r.canvas) :
    (update r t w h).lastFrameTime = t := by
  by_cases hR : RedrawsAt r t w h
  · rw [update_of_redraws r t w h hR]
    simp
  · exact absurd (update_canvas_of_not_redraws r t w h hR) hne

lemma redrawTrace_mem_ge (w h : ℚ) :
    ∀ (ts : List ℚ) (r : VideoAvatarRenderer), 0 ≤ r.frameInterval →
      ∀ t, t ∈ redrawTrace r w h ts → r.lastFrameTime + r.frameInterval ≤ t := by
  intro ts
  induction ts with
  | nil =>
    intro r _ t ht
    simp [redrawTrace] at ht
  | cons t0 ts ih =>
    intro r hI t ht
    unfold redrawTrace at ht
    by_cases hR : RedrawsAt r t0 w h
    · rw [if_pos hR] at ht
      rcases List.mem_cons.mp ht with heq | hmem
      · subst heq
        linarith [hR.2.2.1]
      · have h2 := ih (update r t0 w h) (by rw [update_frameInterval]; exact hI) t hmem
        rw [update_frameInterval] at h2
        rw [update_of_redraws r t0 w h hR] at h2
        simp at h2
        have := hR.2.2.1
        linarith
    · rw [if_neg hR] at ht
      have h2 := ih (update r t0 w h) (by rw [update_frameInterval]; exact hI) t ht
      rw [update_frameInterval] at h2
      have h3 := update_lastFrameTime_mono r t0 w h hI
      linarith

lemma redrawTrace_chain (w h : ℚ) :
    ∀ (ts : List ℚ) (r : VideoAvatarRenderer), 0 ≤ r.frameInterval →
      List.Chain' (fun a b => a + r.frameInterval ≤ b) (redrawTrace r w h ts) := by
  intro ts
  induction ts with
  | nil =>
    intro r _
    simp [redrawTrace]
  | cons t0 ts ih =>
    intro r hI
    unfold redrawTrace
    by_cases hR : RedrawsAt r t0 w h
    · rw [if_pos hR]
      have hIu : 0 ≤ (update r t0 w h).frameInterval := by
        rw [update_frameInterval]; exact hI
      refine List.chain'_cons'.mpr ⟨?_, ?_⟩
      · intro y hy
        have hmem := List.mem_of_mem_head? hy
        have h2 := redrawTrace_mem_ge w h ts (update r t0 w h) hIu y hmem
        rw [update_frameInterval] at h2
        rw [update_of_redraws r t0 w h hR] at h2
        simp at h2
        linarith
      · have h4 := ih (update r t0 w h) hIu
        rw [update_frameInterval] at h4
        exact h4
    · rw [if_neg hR]
      have h4 := ih (update r t0 w h) (by rw [update_frameInterval]; exact hI)
      rw [update_frameInterval] at h4
      exact h4

lemma drawMaskToCanvas_canvas_of_some (r : VideoAvatarRenderer) (img : MaskImage)
    (hmask : r.currentMaskImage = some img) :
    ∃ dx dy dw dh, (drawMaskToCanvas r).canvas =
      CanvasContent.maskDrawn maskBackground img.width img.height dx dy dw dh := by
  unfold drawMaskToCanvas
  rw [hmask]
  by_cases hc : img.width / img.height > SPRITE_WIDTH / SPRITE_HEIGHT
  · refine ⟨0, (SPRITE_HEIGHT - SPRITE_WIDTH / (img.width / img.height)) / 2,
      SPRITE_WIDTH, SPRITE_WIDTH / (img.width / img.height), ?_⟩
    simp [hc]
  · refine ⟨(SPRITE_WIDTH - SPRITE_HEIGHT * (img.width / img.height)) / 2, 0,
      SPRITE_HEIGHT * (img.width / img.height), SPRITE_HEIGHT, ?_⟩
    simp [hc]

end VideoAvatarRenderer

namespace VideoAvatarManager

lemma lookup_cons_self {β : Type} (a : String) (b : β) (l : List (String × β)) :
    ((a, b) :: l).lookup a = some b := by
  simp [List.lookup]

lemma lookup_none_not_mem {β : Type} (a : String) :
    ∀ (l : List (String × β)), l.lookup a = none → a ∉ l.map Prod.fst := by
  intro l
  induction l with
  | nil =>
    intro _
    simp
  | cons p l ih =>
    obtain ⟨k, b⟩ := p
    intro hl
    by_cases hk : a = k
    · subst hk
      rw [lookup_cons_self] at hl
      exact absurd hl (by simp)
    · simp only [List.lookup, beq_eq_false_iff_ne.mpr hk] at hl
      simp only [List.map_cons, List.mem_cons]
      rintro (heq | hmem)
      · exact hk heq
      · exact ih hl hmem

lemma foldl_count_eq (l : List (String × VideoAvatarRenderer)) (n : Nat) :
    l.foldl (fun c p => if p.2.isVideoActive then c + 1 else c) n =
      n + (l.filter (fun p => p.2.isVideoActive)).length := by
  induction l generalizing n with
  | nil => simp
  | cons p l ih =>
    rw [List.foldl_cons, List.filter_cons]
    by_cases hp : p.2.isVideoActive
    · rw [if_pos hp, if_pos hp, ih]
      simp
      omega
    · rw [if_neg hp, if_neg hp, ih]

lemma getActiveVideoCount_le (m : VideoAvatarManager) :
    getActiveVideoCount m ≤ 1 + m.renderers.length := by
  unfold getActiveVideoCount
  rw [foldl_count_eq]
  have h1 := List.length_filter_le (fun p => p.2.isVideoActive) m.renderers
  cases m.localRenderer with
  | none =>
    dsimp only
    omega
  | some r =>
    dsimp only
    split <;> omega

end VideoAvatarManager

namespace VideoAvatarRenderer

lemma setStream_detach (r : VideoAvatarRenderer) (stream : Option MediaStream)
    (hD : r.destroyed = false) (hs : hasVideoTrack stream = false) :
    setStream r stream =
      (if r.currentMaskImage.isSome
       then drawMaskToCanvas { r with srcObject := none, isActive := false }
       else drawPlaceholder { r with srcObject := none, isActive := false }) := by
  unfold setStream
  rw [if_neg (by simp [hD]), if_neg (by simp [hs])]

lemma setStream_attach (r : VideoAvatarRenderer) (stream : Option MediaStream)
    (hD : r.destroyed = false) (hs : hasVideoTrack stream = true) :
    setStream r stream = { r with srcObject := stream, isActive := true } := by
  unfold setStream
  rw [if_neg (by simp [hD]), if_pos hs]

lemma setMaskImage_none_not_destroyed (r : VideoAvatarRenderer)
    (hD : r.destroyed = false) :
    setMaskImage r none =
      (if r.isActive = false
       then drawPlaceholder { r with currentMaskImage := none }
       else { r with currentMaskImage := none }) := by
  unfold setMaskImage
  rw [if_neg (by simp [hD])]

lemma maskOnload_not_destroyed (r : VideoAvatarRenderer) (img : MaskImage)
    (hD : r.destroyed = false) :
    maskOnload r img =
      (if r.isActive = false
       then drawMaskToCanvas { r with currentMaskImage := some img, maskLoading := false }
       else { r with currentMaskImage := some img, maskLoading := false }) := by
  unfold maskOnload
  rw [if_neg (by simp [hD])]

lemma drawMaskToCanvas_texture_eq_canvas (r : VideoAvatarRenderer)
    (hD : r.destroyed = false) :
    (drawMaskToCanvas r).texture = (drawMaskToCanvas r).canvas := by
  unfold drawMaskToCanvas
  cases h : r.currentMaskImage with
  | none =>
    dsimp only
    unfold drawPlaceholder
    simp only [refreshTexture_texture_of_not_destroyed, refreshTexture_canvas, hD]
  | some img =>
    dsimp only
    simp only [refreshTexture_texture_of_not_destroyed, refreshTexture_canvas, hD]

end VideoAvatarRenderer

section Claims

open VideoAvatarRenderer

/-- C3: for every video frame with positive source width `Sw` and height `Sh`
and the 32x32 destination, the video compositor computes the cover-fit source
rectangle: if `Sw/Sh > Dw/Dh` then `sw = Sh*(Dw/Dh)`, `sx = (Sw-sw)/2`, with
full source height (`sy = 0`, `sh = Sh`); otherwise `sh = Sw/(Dw/Dh)`,
`sy = (Sh-sh)/2`, with full source width (`sx = 0`, `sw = Sw`); and the
cropped region is drawn onto the full destination rectangle `0 0 32 32`
(scaled to exactly fill it). -/
theorem claim_C3_cover_rect (r : VideoAvatarRenderer) (Sw Sh : ℚ)
    (hw : 0 < Sw) (hh : 0 < Sh) :
    (drawVideoFrame r Sw Sh).canvas =
      (if Sw / Sh > SPRITE_WIDTH / SPRITE_HEIGHT then
        CanvasContent.videoFrame ((Sw - Sh * (SPRITE_WIDTH / SPRITE_HEIGHT)) / 2) 0
          (Sh * (SPRITE_WIDTH / SPRITE_HEIGHT)) Sh 0 0 SPRITE_WIDTH SPRITE_HEIGHT
      else
        CanvasContent.videoFrame 0 ((Sh - Sw / (SPRITE_WIDTH / SPRITE_HEIGHT)) / 2)
          Sw (Sw / (SPRITE_WIDTH / SPRITE_HEIGHT)) 0 0 SPRITE_WIDTH SPRITE_HEIGHT) := by
  unfold drawVideoFrame
  by_cases hc : Sw / Sh > SPRITE_WIDTH / SPRITE_HEIGHT
  · simp only [hc, if_true, refreshTexture_canvas]
  · simp only [hc, if_false, refreshTexture_canvas]

/-- Witness for C3 at a 640x480 source. -/
theorem claim_C3_cover_rect_witness :
    (drawVideoFrame streamedDemo 640 480).canvas =
      (if (640 : ℚ) / 480 > SPRITE_WIDTH / SPRITE_HEIGHT then
        CanvasContent.videoFrame (((640 : ℚ) - 480 * (SPRITE_WIDTH / SPRITE_HEIGHT)) / 2) 0
          (480 * (SPRITE_WIDTH / SPRITE_HEIGHT)) 480 0 0 SPRITE_WIDTH SPRITE_HEIGHT
      else
        CanvasContent.videoFrame 0 (((480 : ℚ) - 640 / (SPRITE_WIDTH / SPRITE_HEIGHT)) / 2)
          640 (640 / (SPRITE_WIDTH / SPRITE_HEIGHT)) 0 0 SPRITE_WIDTH SPRITE_HEIGHT) :=
  claim_C3_cover_rect streamedDemo 640 480 (by decide) (by decide)

/-- C4: for every cached mask image with positive dimensions and the 32x32
destination, the mask compositor computes the contain-fit destination
rectangle: if the image aspect `Ia` exceeds the destination aspect then
`dw = Dw`, `dh = Dw/Ia`, `dy = (Dh-dh)/2` (and `dx = 0`); otherwise
`dh = Dh`, `dw = Dh*Ia`, `dx = (Dw-dw)/2` (and `dy = 0`); and the
destination is filled with the fixed neutral color `#333333` before the
image is drawn. -/
theorem claim_C4_contain_rect (r : VideoAvatarRenderer) (img : MaskImage)
    (hmask : r.currentMaskImage = some img)
    (hw : 0 < img.width) (hh : 0 < img.height) :
    (drawMaskToCanvas r).canvas =
      (if img.width / img.height > SPRITE_WIDTH / SPRITE_HEIGHT then
        CanvasContent.maskDrawn maskBackground img.width img.height
          0 ((SPRITE_HEIGHT - SPRITE_WIDTH / (img.width / img.height)) / 2)
          SPRITE_WIDTH (SPRITE_WIDTH / (img.width / img.height))
      else
        CanvasContent.maskDrawn maskBackground img.width img.height
          ((SPRITE_WIDTH - SPRITE_HEIGHT * (img.width / img.height)) / 2) 0
          (SPRITE_HEIGHT * (img.width / img.height)) SPRITE_HEIGHT) ∧
    maskBackground = "#333333" := by
  constructor
  · unfold drawMaskToCanvas
    rw [hmask]
    by_cases hc : img.width / img.height > SPRITE_WIDTH / SPRITE_HEIGHT
    · simp only [hc, if_true, refreshTexture_canvas]
    · simp only [hc, if_false, refreshTexture_canvas]
  · rfl

/-- Witness for C4 at the concrete 64x64 cached mask of `maskedIdle`. -/
theorem claim_C4_contain_rect_witness :
    ((drawMaskToCanvas maskedIdle).canvas =
      (if demoImg.width / demoImg.height > SPRITE_WIDTH / SPRITE_HEIGHT then
        CanvasContent.maskDrawn maskBackground demoImg.width demoImg.height
          0 ((SPRITE_HEIGHT - SPRITE_WIDTH / (demoImg.width / demoImg.height)) / 2)
          SPRITE_WIDTH (SPRITE_WIDTH / (demoImg.width / demoImg.height))
      else
        CanvasContent.maskDrawn maskBackground demoImg.width demoImg.height
          ((SPRITE_WIDTH - SPRITE_HEIGHT * (demoImg.width / demoImg.height)) / 2) 0
          (SPRITE_HEIGHT * (demoImg.width / demoImg.height)) SPRITE_HEIGHT) ∧
      maskBackground = "#333333") :=
  claim_C4_contain_rect maskedIdle demoImg rfl (by decide) (by decide)

end Claims

section ClaimsB

open VideoAvatarRenderer VideoAvatarManager

/-- C7: for every registry state, `getActiveVideoCount` equals (1 if the
local instance exists and is video-active else 0) plus the number of remote
instances whose `isVideoActive` is true — it is a pure function of the
current state, recomputed on demand — and `canAddVideoStream` returns true
exactly when `getActiveVideoCount` is below 8 (the default
`MAX_CONCURRENT_VIDEO`). -/
theorem claim_C7_active_count (m : VideoAvatarManager) :
    getActiveVideoCount m =
      ((match m.localRenderer with
        | some r => if r.isVideoActive then 1 else 0
        | none => 0) +
       (m.renderers.filter (fun p => p.2.isVideoActive)).length) ∧
    (canAddVideoStream m = true ↔ getActiveVideoCount m < 8) := by
  constructor
  · unfold getActiveVideoCount
    rw [foldl_count_eq]
  · unfold canAddVideoStream MAX_CONCURRENT_VIDEO
    simp

/-- C8: on a non-destroyed instance, `setStream` with an absent stream (or a
stream with no video track) synchronously detaches the stream, leaves
video-active mode, and in the same call repaints the canvas and texture:
with the mask compositor output when a mask is cached, with the placeholder
otherwise. -/
theorem claim_C8_detach_redraw (r : VideoAvatarRenderer)
    (stream : Option MediaStream)
    (hD : r.destroyed = false) (hs : hasVideoTrack stream = false) :
    (setStream r stream).isActive = false ∧
    isVideoActive (setStream r stream) = false ∧
    (setStream r stream).srcObject = none ∧
    (∀ img, r.currentMaskImage = some img →
      ∃ dx dy dw dh,
        (setStream r stream).canvas =
          CanvasContent.maskDrawn maskBackground img.width img.height dx dy dw dh ∧
        (setStream r stream).texture = (setStream r stream).canvas) ∧
    (r.currentMaskImage = none →
      (setStream r stream).canvas = placeholderContent ∧
      (setStream r stream).texture = (setStream r stream).canvas) := by
  rw [setStream_detach r stream hD hs]
  cases hm : r.currentMaskImage with
  | none =>
    have hDrd :
        ({ r with srcObject := none, isActive := false, currentMaskImage := none } : VideoAvatarRenderer).destroyed = false :=
      hD
    rw [if_neg (by simp : ¬ ((none : Option MaskImage).isSome = true))]
    refine ⟨?_, ?_, ?_, ?_, ?_⟩
    · rw [drawPlaceholder_isActive]
    · unfold isVideoActive
      rw [drawPlaceholder_isActive]
    · rw [drawPlaceholder_srcObject]
    · intro img himg
      exact Option.noConfusion himg
    · intro _
      refine ⟨drawPlaceholder_canvas _, ?_⟩
      rw [drawPlaceholder_texture_of_not_destroyed _ hDrd, drawPlaceholder_canvas]
  | some img0 =>
    have hDrd :
        ({ r with srcObject := none, isActive := false, currentMaskImage := some img0 } : VideoAvatarRenderer).destroyed = false :=
      hD
    rw [if_pos (show (some img0).isSome = true by rfl)]
    refine ⟨?_, ?_, ?_, ?_, ?_⟩
    · rw [drawMaskToCanvas_isActive]
    · unfold isVideoActive
      rw [drawMaskToCanvas_isActive]
    · rw [drawMaskToCanvas_srcObject]
    · intro img himg
      have himg2 :
          ({ r with srcObject := none, isActive := false, currentMaskImage := some img0 } : VideoAvatarRenderer).currentMaskImage = some img := by
        exact congrArg some (Option.some.inj himg)
      obtain ⟨dx, dy, dw, dh, hcan⟩ := drawMaskToCanvas_canvas_of_some _ img himg2
      exact ⟨dx, dy, dw, dh, hcan, drawMaskToCanvas_texture_eq_canvas _ hDrd⟩
    · intro hnone
      exact Option.noConfusion hnone

/-- Witness for C8: detaching (`setStream` with no stream) on a live
instance holding a cached mask. -/
theorem claim_C8_detach_redraw_witness :
    ((setStream maskedIdle none).isActive = false ∧
    isVideoActive (setStream maskedIdle none) = false ∧
    (setStream maskedIdle none).srcObject = none ∧
    (∀ img, maskedIdle.currentMaskImage = some img →
      ∃ dx dy dw dh,
        (setStream maskedIdle none).canvas =
          CanvasContent.maskDrawn maskBackground img.width img.height dx dy dw dh ∧
        (setStream maskedIdle none).texture = (setStream maskedIdle none).canvas) ∧
    (maskedIdle.currentMaskImage = none →
      (setStream maskedIdle none).canvas = placeholderContent ∧
      (setStream maskedIdle none).texture = (setStream maskedIdle none).canvas)) :=
  claim_C8_detach_redraw maskedIdle none rfl rfl

/-- C10: `setMaskImage(null)` does not cancel an in-flight mask load: with a
load in flight (`maskLoading = true`) on a non-destroyed instance, after
`setMaskImage none` the flag `maskLoading` (and `isMaskLoading`) is still
true while the cached mask is cleared; if the earlier load then succeeds,
its image is installed as the cached mask, `maskLoading` is cleared, and —
when not video-active — the mask is drawn; so the cached mask is non-null
again after having been cleared. -/
theorem claim_C10_no_cancel (r : VideoAvatarRenderer) (img : MaskImage)
    (hL : r.maskLoading = true) (hD : r.destroyed = false) :
    (setMaskImage r none).maskLoading = true ∧
    isMaskLoading (setMaskImage r none) = true ∧
    (setMaskImage r none).currentMaskImage = none ∧
    (maskOnload (setMaskImage r none) img).currentMaskImage = some img ∧
    (maskOnload (setMaskImage r none) img).maskLoading = false ∧
    (r.isActive = false →
      ∃ dx dy dw dh, (maskOnload (setMaskImage r none) img).canvas =
        CanvasContent.maskDrawn maskBackground img.width img.height dx dy dw dh) := by
  rw [setMaskImage_none_not_destroyed r hD]
  by_cases hA : r.isActive = false
  · rw [if_pos hA]
    have hD2 : (drawPlaceholder { r with currentMaskImage := none }).destroyed = false := by
      simpa using hD
    rw [maskOnload_not_destroyed _ img hD2]
    have hA2 : (drawPlaceholder { r with currentMaskImage := none }).isActive = false := by
      simpa using hA
    rw [if_pos hA2]
    refine ⟨by simpa using hL, by simpa [isMaskLoading] using hL, by simp, ?_, ?_, ?_⟩
    · simp
    · simp
    · intro _
      exact drawMaskToCanvas_canvas_of_some _ img (by simp)
  · rw [if_neg hA]
    have hD2 : ({ r with currentMaskImage := none } :
        VideoAvatarRenderer).destroyed = false := hD
    rw [maskOnload_not_destroyed _ img hD2]
    have hA2 : ¬ ({ r with currentMaskImage := none } :
        VideoAvatarRenderer).isActive = false := hA
    rw [if_neg hA2]
    exact ⟨hL, hL, rfl, rfl, rfl, fun hc => absurd hc hA⟩

/-- Witness for C10: an instance that has just started a mask load. -/
theorem claim_C10_no_cancel_witness :
    ((setMaskImage (setMaskImage
        (VideoAvatarRenderer.create VideoAvatarManager.localKey)
        (some demoUrl)) none).maskLoading = true ∧
    isMaskLoading (setMaskImage (setMaskImage
        (VideoAvatarRenderer.create VideoAvatarManager.localKey)
        (some demoUrl)) none) = true ∧
    (setMaskImage (setMaskImage
        (VideoAvatarRenderer.create VideoAvatarManager.localKey)
        (some demoUrl)) none).currentMaskImage = none ∧
    (maskOnload (setMaskImage (setMaskImage
        (VideoAvatarRenderer.create VideoAvatarManager.localKey)
        (some demoUrl)) none) demoImg).currentMaskImage = some demoImg ∧
    (maskOnload (setMaskImage (setMaskImage
        (VideoAvatarRenderer.create VideoAvatarManager.localKey)
        (some demoUrl)) none) demoImg).maskLoading = false ∧
    ((setMaskImage (VideoAvatarRenderer.create VideoAvatarManager.localKey)
        (some demoUrl)).isActive = false →
      ∃ dx dy dw dh,
        (maskOnload (setMaskImage (setMaskImage
          (VideoAvatarRenderer.create VideoAvatarManager.localKey)
          (some demoUrl)) none) demoImg).canvas =
          CanvasContent.maskDrawn maskBackground demoImg.width demoImg.height
            dx dy dw dh)) :=
  claim_C10_no_cancel
    (setMaskImage (VideoAvatarRenderer.create VideoAvatarManager.localKey)
      (some demoUrl)) demoImg rfl rfl

end ClaimsB

namespace VideoAvatarManager

lemma getOrCreateRenderer_of_some (m : VideoAvatarManager) (id : String)
    (r0 : VideoAvatarRenderer) (hl : m.renderers.lookup id = some r0) :
    getOrCreateRenderer m id = (m, r0) := by
  unfold getOrCreateRenderer
  rw [hl]

lemma getOrCreateRenderer_of_none (m : VideoAvatarManager) (id : String)
    (hl : m.renderers.lookup id = none) :
    getOrCreateRenderer m id = createRemoteRenderer m id := by
  unfold getOrCreateRenderer
  rw [hl]

lemma createRemoteRenderer_renderers (m : VideoAvatarManager) (id : String)
    (hl : m.renderers.lookup id = none) :
    (createRemoteRenderer m id).1.renderers =
      (id, (createRemoteRenderer m id).2) :: m.renderers := by
  unfold createRemoteRenderer
  rw [hl]
  dsimp only
  split <;> rfl

lemma createRemoteRenderer_localRenderer (m : VideoAvatarManager) (id : String)
    (hl : m.renderers.lookup id = none) :
    (createRemoteRenderer m id).1.localRenderer = m.localRenderer := by
  unfold createRemoteRenderer
  rw [hl]
  dsimp only
  split <;> rfl

lemma createRemoteRenderer_destroyed (m : VideoAvatarManager) (id : String)
    (hl : m.renderers.lookup id = none) :
    (createRemoteRenderer m id).1.destroyed = m.destroyed := by
  unfold createRemoteRenderer
  rw [hl]
  dsimp only
  split <;> rfl

lemma createRemoteRenderer_log (m : VideoAvatarManager) (id : String)
    (hl : m.renderers.lookup id = none) :
    (createRemoteRenderer m id).1.log =
      (if MAX_CONCURRENT_VIDEO ≤ m.renderers.length
       then maxWarning :: m.log else m.log) := by
  unfold createRemoteRenderer
  rw [hl]
  dsimp only
  split
  next hcap => rfl
  next hcap => rfl

end VideoAvatarManager

section ClaimsC

open VideoAvatarRenderer

/-- C1 (counterexample): the claim says every asynchronous callback is a
no-op on a destroyed instance, but the image-load failure callback does not
check `destroyed`: on the concrete instance `destroyedLoading` (destroyed
while a mask load is in flight, `maskLoading = true`) the failure callback
still mutates the instance, clearing `maskLoading`. -/
theorem claim_C1_counterexample :
    destroyedLoading.destroyed = true ∧
    destroyedLoading.maskLoading = true ∧
    (maskOnerror destroyedLoading).maskLoading = false ∧
    maskOnerror destroyedLoading ≠ destroyedLoading := by
  refine ⟨rfl, rfl, rfl, ?_⟩
  intro he
  have h1 : false = true := by
    calc false = (maskOnerror destroyedLoading).maskLoading := rfl
    _ = destroyedLoading.maskLoading := congrArg VideoAvatarRenderer.maskLoading he
    _ = true := rfl
  exact Bool.noConfusion h1

/-- C1 (amended): once `destroy()` has run, `setStream`, `setMaskImage`,
`update`, `destroy` and the image-load success callback are exact no-ops;
the image-load failure callback — which does not check `destroyed` in the
source — still clears `maskLoading` and repaints the internal canvas with
the placeholder when the instance is not video-active, but it leaves the
output texture and every other field unchanged. -/
theorem claim_C1_amended (r : VideoAvatarRenderer) (hD : r.destroyed = true)
    (stream : Option MediaStream) (url : Option String) (t w h : ℚ)
    (img : MaskImage) :
    setStream r stream = r ∧
    setMaskImage r url = r ∧
    update r t w h = r ∧
    destroy r = r ∧
    maskOnload r img = r ∧
    (maskOnerror r).maskLoading = false ∧
    (maskOnerror r).canvas =
      (if r.isActive = true then r.canvas else placeholderContent) ∧
    (maskOnerror r).texture = r.texture ∧
    (maskOnerror r).destroyed = r.destroyed ∧
    (maskOnerror r).currentMaskImage = r.currentMaskImage ∧
    (maskOnerror r).srcObject = r.srcObject ∧
    (maskOnerror r).isActive = r.isActive ∧
    (maskOnerror r).lastFrameTime = r.lastFrameTime ∧
    (maskOnerror r).frameInterval = r.frameInterval ∧
    (maskOnerror r).textureKey = r.textureKey := by
  have hsS : setStream r stream = r := by
    unfold setStream
    rw [if_pos hD]
  have hsM : setMaskImage r url = r := by
    unfold setMaskImage
    rw [if_pos hD]
  have hu : update r t w h = r := by
    unfold update
    rw [if_pos hD]
  have hde : destroy r = r := by
    unfold destroy
    rw [if_pos hD]
  have hml : maskOnload r img = r := by
    unfold maskOnload
    rw [if_pos hD]
  have hme : maskOnerror r =
      (if r.isActive = false
       then drawPlaceholder { r with maskLoading := false }
       else { r with maskLoading := false }) := rfl
  have hDm : ({ r with maskLoading := false } :
      VideoAvatarRenderer).destroyed = true := hD
  by_cases hA : r.isActive = false
  · have hAn : ¬ (r.isActive = true) := by
      rw [hA]
      simp
    rw [hme, if_pos hA, if_neg hAn]
    refine ⟨hsS, hsM, hu, hde, hml, ?_, ?_, ?_, ?_, ?_, ?_, ?_, ?_, ?_, ?_⟩
    · rw [drawPlaceholder_maskLoading]
    · rw [drawPlaceholder_canvas]
    · rw [drawPlaceholder_texture_of_destroyed _ hDm]
    · rw [drawPlaceholder_destroyed]
    · rw [drawPlaceholder_currentMaskImage]
    · rw [drawPlaceholder_srcObject]
    · rw [drawPlaceholder_isActive]
    · rw [drawPlaceholder_lastFrameTime]
    · rw [drawPlaceholder_frameInterval]
    · rw [drawPlaceholder_textureKey]
  · have hAt : r.isActive = true := by
      cases hb : r.isActive
      · exact absurd hb hA
      · rfl
    rw [hme, if_neg hA, if_pos hAt]
    exact ⟨hsS, hsM, hu, hde, hml, rfl, rfl, rfl, rfl, rfl, rfl, rfl, rfl, rfl, rfl⟩

/-- Witness for C1 (amended) at the destroyed instance `destroyedLoading`. -/
theorem claim_C1_amended_witness :
    (setStream destroyedLoading (some demoStream) = destroyedLoading ∧
    setMaskImage destroyedLoading (some demoUrl) = destroyedLoading ∧
    update destroyedLoading 42 640 480 = destroyedLoading ∧
    destroy destroyedLoading = destroyedLoading ∧
    maskOnload destroyedLoading demoImg = destroyedLoading ∧
    (maskOnerror destroyedLoading).maskLoading = false ∧
    (maskOnerror destroyedLoading).canvas =
      (if destroyedLoading.isActive = true
       then destroyedLoading.canvas else placeholderContent) ∧
    (maskOnerror destroyedLoading).texture = destroyedLoading.texture ∧
    (maskOnerror destroyedLoading).destroyed = destroyedLoading.destroyed ∧
    (maskOnerror destroyedLoading).currentMaskImage =
      destroyedLoading.currentMaskImage ∧
    (maskOnerror destroyedLoading).srcObject = destroyedLoading.srcObject ∧
    (maskOnerror destroyedLoading).isActive = destroyedLoading.isActive ∧
    (maskOnerror destroyedLoading).lastFrameTime =
      destroyedLoading.lastFrameTime ∧
    (maskOnerror destroyedLoading).frameInterval =
      destroyedLoading.frameInterval ∧
    (maskOnerror destroyedLoading).textureKey = destroyedLoading.textureKey) :=
  claim_C1_amended destroyedLoading rfl (some demoStream) (some demoUrl)
    42 640 480 demoImg

/-- C2 (counterexample): the claim expects 3 to 4 video redraws over any
10 ms-spaced tick sequence spanning 200 ms; on the concrete run of a fresh
video-active instance over ticks 0, 10, ..., 200 (with the video reporting
640x480) only 2 redraws occur. -/
theorem claim_C2_counterexample :
    streamedDemo.isActive = true ∧
    streamedDemo.destroyed = false ∧
    streamedDemo.frameInterval = 66 ∧
    redrawTrace streamedDemo 640 480 ticks0to200 = [70, 140] ∧
    ¬ (3 ≤ (redrawTrace streamedDemo 640 480 ticks0to200).length) := by
  have htr : redrawTrace streamedDemo 640 480 ticks0to200 = [70, 140] := by
    norm_num [ticks0to200, redrawTrace, RedrawsAt, update, drawVideoFrame,
      refreshTexture, streamedDemo, demoStream, VideoAvatarRenderer.create,
      drawPlaceholder, placeholderContent, setStream, hasVideoTrack,
      SPRITE_WIDTH, SPRITE_HEIGHT, VideoAvatarManager.localKey]
  refine ⟨rfl, rfl, rfl, htr, ?_⟩
  rw [htr]
  norm_num

/-- C2 (amended): in video-active mode with nonzero reported dimensions, a
video redraw happens only when `time - lastFrameTime ≥ 66` (otherwise
`update` is an exact no-op), so any two successive redraw timestamps are at
least 66 ms apart — over any tick sequence, sorted or not; concretely, over
10 ms-spaced ticks spanning 200 ms the compositor runs 2 times (window
aligned with the last redraw: ticks 0..200 from a fresh instance) or 3
times (ticks 1000..1200), and never 20. -/
theorem claim_C2_amended (r : VideoAvatarRenderer) (w h : ℚ) (ts : List ℚ)
    (hA : r.isActive = true) (hD : r.destroyed = false)
    (hI : r.frameInterval = 66) (hw : w ≠ 0) (hh : h ≠ 0) :
    (∀ t, t - r.lastFrameTime < 66 → update r t w h = r) ∧
    List.Chain' (fun a b => 66 ≤ b - a) (redrawTrace r w h ts) ∧
    redrawTrace streamedDemo 640 480 ticks0to200 = [70, 140] ∧
    redrawTrace streamedDemo 640 480 ticks1000to1200 = [1000, 1070, 1140] ∧
    (redrawTrace streamedDemo 640 480 ticks0to200).length = 2 ∧
    (redrawTrace streamedDemo 640 480 ticks1000to1200).length = 3 ∧
    (redrawTrace streamedDemo 640 480 ticks0to200).length ≠ 20 ∧
    (redrawTrace streamedDemo 640 480 ticks1000to1200).length ≠ 20 := by
  have htr1 : redrawTrace streamedDemo 640 480 ticks0to200 = [70, 140] := by
    norm_num [ticks0to200, redrawTrace, RedrawsAt, update, drawVideoFrame,
      refreshTexture, streamedDemo, demoStream, VideoAvatarRenderer.create,
      drawPlaceholder, placeholderContent, setStream, hasVideoTrack,
      SPRITE_WIDTH, SPRITE_HEIGHT, VideoAvatarManager.localKey]
  have htr2 : redrawTrace streamedDemo 640 480 ticks1000to1200 =
      [1000, 1070, 1140] := by
    norm_num [ticks1000to1200, redrawTrace, RedrawsAt, update, drawVideoFrame,
      refreshTexture, streamedDemo, demoStream, VideoAvatarRenderer.create,
      drawPlaceholder, placeholderContent, setStream, hasVideoTrack,
      SPRITE_WIDTH, SPRITE_HEIGHT, VideoAvatarManager.localKey]
  refine ⟨?_, ?_, htr1, htr2, ?_, ?_, ?_, ?_⟩
  · intro t hlt
    refine update_eq_self_of_throttled r t w h hD hA ?_
    rw [hI]
    exact hlt
  · have hc := redrawTrace_chain w h ts r (by rw [hI]; norm_num)
    rw [hI] at hc
    refine List.Chain'.imp ?_ hc
    intro a b hab
    linarith
  · rw [htr1]
    rfl
  · rw [htr2]
    rfl
  · rw [htr1]
    norm_num
  · rw [htr2]
    norm_num

/-- Witness for C2 (amended) at the fresh video-active instance over the
0..200 tick sequence with a 640x480 source. -/
theorem claim_C2_amended_witness :
    ((∀ t, t - streamedDemo.lastFrameTime < 66 →
      update streamedDemo t 640 480 = streamedDemo) ∧
    List.Chain' (fun a b => 66 ≤ b - a)
      (redrawTrace streamedDemo 640 480 ticks0to200) ∧
    redrawTrace streamedDemo 640 480 ticks0to200 = [70, 140] ∧
    redrawTrace streamedDemo 640 480 ticks1000to1200 = [1000, 1070, 1140] ∧
    (redrawTrace streamedDemo 640 480 ticks0to200).length = 2 ∧
    (redrawTrace streamedDemo 640 480 ticks1000to1200).length = 3 ∧
    (redrawTrace streamedDemo 640 480 ticks0to200).length ≠ 20 ∧
    (redrawTrace streamedDemo 640 480 ticks1000to1200).length ≠ 20) :=
  claim_C2_amended streamedDemo 640 480 ticks0to200 rfl rfl rfl
    (by decide) (by decide)

/-- C5 (counterexample): the claim says `lastFrameTimestamp` changes only
when a video redraw is actually performed, but when the throttle window has
elapsed while the video still reports zero width, `update` advances
`lastFrameTimestamp` without performing any redraw: on `streamedDemo`
(fresh video-active, `lastFrameTime = 0`), `update` at tick 100 with a
0x480 video sets `lastFrameTime` to 100 while canvas and texture are
unchanged. -/
theorem claim_C5_counterexample :
    streamedDemo.destroyed = false ∧
    streamedDemo.lastFrameTime = 0 ∧
    (update streamedDemo 100 0 480).lastFrameTime = 100 ∧
    (update streamedDemo 100 0 480).canvas = streamedDemo.canvas ∧
    (update streamedDemo 100 0 480).texture = streamedDemo.texture := by
  refine ⟨rfl, rfl, ?_, ?_, ?_⟩ <;>
    norm_num [update, streamedDemo, setStream, hasVideoTrack, demoStream,
      VideoAvatarRenderer.create, drawPlaceholder, refreshTexture,
      placeholderContent, VideoAvatarManager.localKey]

/-- C5 (amended): on a non-destroyed instance, `lastFrameTimestamp` is
monotonically non-decreasing across `update` calls; it changes only on a
tick where the throttle window has elapsed (`lastFrameTime + 66 ≤ t`, in
video-active mode), and then it is set to that tick; whenever `update`
repaints the canvas (a video redraw), `lastFrameTimestamp` equals the
redraw tick.  (A tick may consume the throttle window without a redraw when
the video reports a zero dimension.) -/
theorem claim_C5_amended (r : VideoAvatarRenderer) (t w h : ℚ)
    (hD : r.destroyed = false) (hI : r.frameInterval = 66) :
    r.lastFrameTime ≤ (update r t w h).lastFrameTime ∧
    ((update r t w h).lastFrameTime ≠ r.lastFrameTime →
      (update r t w h).lastFrameTime = t ∧ r.lastFrameTime + 66 ≤ t ∧
      r.isActive = true) ∧
    ((update r t w h).canvas ≠ r.canvas → (update r t w h).lastFrameTime = t) := by
  refine ⟨update_lastFrameTime_mono r t w h (by rw [hI]; norm_num), ?_, ?_⟩
  · intro hne
    rcases update_lastFrameTime_cases r t w h with hc | ⟨ht, hDc, hAc, hle⟩
    · exact absurd hc hne
    · refine ⟨ht, ?_, hAc⟩
      rw [hI] at hle
      linarith
  · exact update_lastFrameTime_of_canvas_ne r t w h

/-- Witness for C5 (amended) at `streamedDemo` with tick 100 and a zero-width
video. -/
theorem claim_C5_amended_witness :
    (streamedDemo.lastFrameTime ≤ (update streamedDemo 100 0 480).lastFrameTime ∧
    ((update streamedDemo 100 0 480).lastFrameTime ≠ streamedDemo.lastFrameTime →
      (update streamedDemo 100 0 480).lastFrameTime = 100 ∧
      streamedDemo.lastFrameTime + 66 ≤ 100 ∧
      streamedDemo.isActive = true) ∧
    ((update streamedDemo 100 0 480).canvas ≠ streamedDemo.canvas →
      (update streamedDemo 100 0 480).lastFrameTime = 100)) :=
  claim_C5_amended streamedDemo 100 0 480 rfl rfl

end ClaimsC

namespace VideoAvatarManager

lemma createLocalRenderer_of_some (m : VideoAvatarManager)
    (r0 : VideoAvatarRenderer) (hL : m.localRenderer = some r0) :
    createLocalRenderer m = (m, r0) := by
  unfold createLocalRenderer
  rw [hL]

lemma createLocalRenderer_of_none (m : VideoAvatarManager)
    (hL : m.localRenderer = none) :
    createLocalRenderer m =
      ({ m with localRenderer := some (VideoAvatarRenderer.create localKey) },
        VideoAvatarRenderer.create localKey) := by
  unfold createLocalRenderer
  rw [hL]

end VideoAvatarManager

section ClaimsD

open VideoAvatarManager

/-- C6: the registry's concurrency cap is advisory: creating a new remote
instance always succeeds — the new renderer is inserted and returned, and
the only other possible effect is a warning appended to the log (appended
exactly when the map already holds `MAX_CONCURRENT_VIDEO` = 8 entries; in
particular it is appended whenever more than 8 instances are
video-active, since at most one video-active instance — the local one —
lives outside the map); the local renderer, the destroyed flag and the
existing entries are untouched, and stream attachment (`setStream`) on any
live renderer is never refused either. -/
theorem claim_C6_advisory_cap (m : VideoAvatarManager) (id : String)
    (hnew : m.renderers.lookup id = none) :
    (createRemoteRenderer m id).1.renderers =
      (id, (createRemoteRenderer m id).2) :: m.renderers ∧
    (createRemoteRenderer m id).1.renderers.lookup id =
      some (createRemoteRenderer m id).2 ∧
    (createRemoteRenderer m id).1.localRenderer = m.localRenderer ∧
    (createRemoteRenderer m id).1.destroyed = m.destroyed ∧
    ((createRemoteRenderer m id).1.log =
      (if MAX_CONCURRENT_VIDEO ≤ m.renderers.length
       then maxWarning :: m.log else m.log)) ∧
    (MAX_CONCURRENT_VIDEO < getActiveVideoCount m →
      (createRemoteRenderer m id).1.log = maxWarning :: m.log) ∧
    (∀ (r : VideoAvatarRenderer) (s : MediaStream), r.destroyed = false →
      VideoAvatarRenderer.hasVideoTrack (some s) = true →
      (VideoAvatarRenderer.setStream r (some s)).isActive = true) := by
  refine ⟨createRemoteRenderer_renderers m id hnew, ?_,
    createRemoteRenderer_localRenderer m id hnew,
    createRemoteRenderer_destroyed m id hnew,
    createRemoteRenderer_log m id hnew, ?_, ?_⟩
  · rw [createRemoteRenderer_renderers m id hnew]
    exact lookup_cons_self id _ _
  · intro hcount
    rw [createRemoteRenderer_log m id hnew]
    have hle := getActiveVideoCount_le m
    have hcap : MAX_CONCURRENT_VIDEO ≤ m.renderers.length := by
      unfold MAX_CONCURRENT_VIDEO at hcount ⊢
      omega
    rw [if_pos hcap]
  · intro r s hr hs
    rw [VideoAvatarRenderer.setStream_attach r (some s) hr hs]

/-- Witness for C6 at the empty registry. -/
theorem claim_C6_advisory_cap_witness :
    ((createRemoteRenderer VideoAvatarManager.create demoId).1.renderers =
      (demoId, (createRemoteRenderer VideoAvatarManager.create demoId).2) ::
        VideoAvatarManager.create.renderers ∧
    (createRemoteRenderer VideoAvatarManager.create demoId).1.renderers.lookup
        demoId =
      some (createRemoteRenderer VideoAvatarManager.create demoId).2 ∧
    (createRemoteRenderer VideoAvatarManager.create demoId).1.localRenderer =
      VideoAvatarManager.create.localRenderer ∧
    (createRemoteRenderer VideoAvatarManager.create demoId).1.destroyed =
      VideoAvatarManager.create.destroyed ∧
    ((createRemoteRenderer VideoAvatarManager.create demoId).1.log =
      (if MAX_CONCURRENT_VIDEO ≤ VideoAvatarManager.create.renderers.length
       then maxWarning :: VideoAvatarManager.create.log
       else VideoAvatarManager.create.log)) ∧
    (MAX_CONCURRENT_VIDEO < getActiveVideoCount VideoAvatarManager.create →
      (createRemoteRenderer VideoAvatarManager.create demoId).1.log =
        maxWarning :: VideoAvatarManager.create.log) ∧
    (∀ (r : VideoAvatarRenderer) (s : MediaStream), r.destroyed = false →
      VideoAvatarRenderer.hasVideoTrack (some s) = true →
      (VideoAvatarRenderer.setStream r (some s)).isActive = true)) :=
  claim_C6_advisory_cap VideoAvatarManager.create demoId rfl

/-- C9: registry get-or-create is idempotent: a second `getOrCreateRenderer`
with the same id returns the very renderer the first call returned and
leaves the registry unchanged; a second `createLocalRenderer` returns the
existing local renderer and leaves the registry unchanged; after
get-or-create, the id is bound to the returned renderer, and distinctness
of the remote keys is preserved (at most one remote instance per id; the
local instance is unique by construction, stored in an `Option`). -/
theorem claim_C9_idempotent (m : VideoAvatarManager) (id : String) :
    ((getOrCreateRenderer (getOrCreateRenderer m id).1 id).2 =
      (getOrCreateRenderer m id).2 ∧
    (getOrCreateRenderer (getOrCreateRenderer m id).1 id).1 =
      (getOrCreateRenderer m id).1) ∧
    ((createLocalRenderer (createLocalRenderer m).1).2 =
      (createLocalRenderer m).2 ∧
    (createLocalRenderer (createLocalRenderer m).1).1 =
      (createLocalRenderer m).1 ∧
    (createLocalRenderer m).1.localRenderer =
      some (createLocalRenderer m).2) ∧
    (getOrCreateRenderer m id).1.renderers.lookup id =
      some (getOrCreateRenderer m id).2 ∧
    ((m.renderers.map Prod.fst).Nodup →
      ((getOrCreateRenderer m id).1.renderers.map Prod.fst).Nodup) := by
  have hlocal : (createLocalRenderer (createLocalRenderer m).1).2 =
        (createLocalRenderer m).2 ∧
      (createLocalRenderer (createLocalRenderer m).1).1 =
        (createLocalRenderer m).1 ∧
      (createLocalRenderer m).1.localRenderer =
        some (createLocalRenderer m).2 := by
    cases hL : m.localRenderer with
    | some r0 =>
      have c1 := createLocalRenderer_of_some m r0 hL
      rw [c1]
      refine ⟨?_, ?_, hL⟩
      · show (createLocalRenderer m).2 = r0
        rw [c1]
      · show (createLocalRenderer m).1 = m
        rw [c1]
    | none =>
      have c1 := createLocalRenderer_of_none m hL
      have c2 : createLocalRenderer
          ({ m with localRenderer := some (VideoAvatarRenderer.create localKey) } :
            VideoAvatarManager) =
          ({ m with localRenderer := some (VideoAvatarRenderer.create localKey) },
            VideoAvatarRenderer.create localKey) :=
        createLocalRenderer_of_some _ _ rfl
      rw [c1]
      refine ⟨?_, ?_, rfl⟩
      · show (createLocalRenderer
            { m with localRenderer := some (VideoAvatarRenderer.create localKey) }).2 =
          VideoAvatarRenderer.create localKey
        rw [c2]
      · show (createLocalRenderer
            { m with localRenderer := some (VideoAvatarRenderer.create localKey) }).1 =
          { m with localRenderer := some (VideoAvatarRenderer.create localKey) }
        rw [c2]
  cases hl : m.renderers.lookup id with
  | some r0 =>
    rw [getOrCreateRenderer_of_some m id r0 hl]
    rw [getOrCreateRenderer_of_some m id r0 hl]
    exact ⟨⟨rfl, rfl⟩, hlocal, hl, fun hnd => hnd⟩
  | none =>
    rw [getOrCreateRenderer_of_none m id hl]
    have hrs := createRemoteRenderer_renderers m id hl
    have hlk : (createRemoteRenderer m id).1.renderers.lookup id =
        some (createRemoteRenderer m id).2 := by
      rw [hrs]
      exact lookup_cons_self id _ _
    rw [getOrCreateRenderer_of_some _ id _ hlk]
    refine ⟨⟨rfl, rfl⟩, hlocal, hlk, ?_⟩
    intro hnd
    rw [hrs, List.map_cons]
    refine List.nodup_cons.mpr ⟨?_, hnd⟩
    exact lookup_none_not_mem id m.renderers hl

/-- Witness for C9 at the empty registry. -/
theorem claim_C9_idempotent_witness :
    (((getOrCreateRenderer
        (getOrCreateRenderer VideoAvatarManager.create demoId).1 demoId).2 =
      (getOrCreateRenderer VideoAvatarManager.create demoId).2 ∧
    (getOrCreateRenderer
        (getOrCreateRenderer VideoAvatarManager.create demoId).1 demoId).1 =
      (getOrCreateRenderer VideoAvatarManager.create demoId).1) ∧
    ((createLocalRenderer (createLocalRenderer VideoAvatarManager.create).1).2 =
      (createLocalRenderer VideoAvatarManager.create).2 ∧
    (createLocalRenderer (createLocalRenderer VideoAvatarManager.create).1).1 =
      (createLocalRenderer VideoAvatarManager.create).1 ∧
    (createLocalRenderer VideoAvatarManager.create).1.localRenderer =
      some (createLocalRenderer VideoAvatarManager.create).2) ∧
    (getOrCreateRenderer VideoAvatarManager.create demoId).1.renderers.lookup
        demoId =
      some (getOrCreateRenderer VideoAvatarManager.create demoId).2 ∧
    ((VideoAvatarManager.create.renderers.map Prod.fst).Nodup →
      ((getOrCreateRenderer VideoAvatarManager.create
          demoId).1.renderers.map Prod.fst).Nodup)) :=
  claim_C9_idempotent VideoAvatarManager.create demoId

end ClaimsD
